import Mathlib

/-!
Shallow embedding of `src/plugins/api-server/backend/routes/websocket.ts`:
the lyric normalizer, the player-state snapshot builder, the broadcast hub
state machine (event ingestion, fan-out, connection open/close) and the
current-lyric HTTP endpoint.  JavaScript numbers are modelled as `ℚ` plus an
explicit NaN; the `any`-typed payload boundary is modelled by an untyped
`JSVal` datatype with the JS coercions the source uses.
-/

namespace Pear

/-- JS number: either NaN or a rational value.  The model ignores signed
infinities and floating-point rounding; every number the hub manipulates is a
finite decimal. -/
inductive JSNum where
  | nan
  | val (q : ℚ)
deriving DecidableEq, Repr

/-- Untyped JavaScript value, as received on the `any`-typed payload boundary.
Objects are finite key-value lists with distinct keys; arrays are not needed
by the code under test. -/
inductive JSVal where
  | undefined
  | null
  | bool (b : Bool)
  | num (n : JSNum)
  | str (s : String)
  | obj (fields : List (String × JSVal))

namespace JSVal

/-- Optional-chaining member access `v?.k`: `undefined` on `null`/`undefined`
and on primitives, field lookup on objects (a missing key gives
`undefined`). -/
def getOpt (v : JSVal) (k : String) : JSVal :=
  match v with
  | .obj fields => (fields.lookup k).getD .undefined
  | _ => .undefined

/-- Nullish coalescing `a ?? b`. -/
def nullish (a b : JSVal) : JSVal :=
  match a with
  | .undefined => b
  | .null => b
  | _ => a

/-- `typeof v`. -/
def typeofStr (v : JSVal) : String :=
  match v with
  | .undefined => "undefined"
  | .null => "object"
  | .bool _ => "boolean"
  | .num _ => "number"
  | .str _ => "string"
  | .obj _ => "object"

/-- Boolean coercion (JS truthiness). -/
def truthy (v : JSVal) : Bool :=
  match v with
  | .undefined => false
  | .null => false
  | .bool b => b
  | .num .nan => false
  | .num (.val q) => q != 0
  | .str s => s != ""
  | .obj _ => true

end JSVal

/-- ASCII whitespace, the fragment of the JS `trim`/`Number` whitespace set
that the hub's inputs can contain. -/
def isJsSpace (c : Char) : Bool :=
  c == ' ' || c == '\t' || c == '\n' || c == '\r'

/-- `s.trim()`: strip leading and trailing whitespace (character-level
implementation, so that proofs can evaluate it). -/
def trimString (s : String) : String :=
  .mk (((s.data.dropWhile isJsSpace).reverse.dropWhile isJsSpace).reverse)

/-- `s.split(sep)` for a single-character class: cut at every character
satisfying `sep`, keeping empty segments, like the JS regex split. -/
def splitChars (sep : Char → Bool) : List Char → List Char → List String
  | [], acc => [.mk acc.reverse]
  | c :: rest, acc =>
    if sep c then .mk acc.reverse :: splitChars sep rest []
    else splitChars sep rest (c :: acc)

/-- Value of a list of decimal digit characters. -/
def digitsToNat (cs : List Char) : ℕ :=
  cs.foldl (fun a c => a * 10 + (c.toNat - 48)) 0

/-- `Number(s)` for a string: trimmed empty string is `0`; an optionally
signed decimal literal parses to its value; anything else is NaN.  (The JS
forms not used by the hub's payloads — hex, exponent, `Infinity` — are not
modelled and map to NaN.) -/
def jsParseNum (s : String) : JSNum :=
  let t := trimString s
  if t = "" then .val 0
  else
    let (sgn, body) : ℚ × List Char :=
      match t.toList with
      | '-' :: r => (-1, r)
      | '+' :: r => (1, r)
      | r => (1, r)
    let intPart := body.takeWhile (·.isDigit)
    let rest := body.dropWhile (·.isDigit)
    match rest with
    | [] => if body.isEmpty then .nan else .val (sgn * digitsToNat intPart)
    | '.' :: frac =>
      if frac.all (·.isDigit) && !(intPart.isEmpty && frac.isEmpty) then
        .val (sgn * ((digitsToNat intPart : ℚ)
          + (digitsToNat frac : ℚ) / (10 ^ frac.length)))
      else .nan
    | _ => .nan

/-- Decimal rendering of a JS number (`String(n)`); NaN prints as "NaN".  A
non-integral rational is rendered as numerator/denominator, which is where the
model departs from JS's shortest-decimal printing; no value the hub produces
depends on this rendering. -/
def jsNumToString (n : JSNum) : String :=
  match n with
  | .nan => "NaN"
  | .val q => if q.den = 1 then toString q.num else s!"{q.num}/{q.den}"

namespace JSVal

/-- Number coercion `Number(v)`. -/
def toNumber (v : JSVal) : JSNum :=
  match v with
  | .undefined => .nan
  | .null => .val 0
  | .bool b => .val (if b then 1 else 0)
  | .num n => n
  | .str s => jsParseNum s
  | .obj _ => .nan

/-- String coercion `String(v)`. -/
def toStringJS (v : JSVal) : String :=
  match v with
  | .undefined => "undefined"
  | .null => "null"
  | .bool b => if b then "true" else "false"
  | .num n => jsNumToString n
  | .str s => s
  | .obj _ => "[object Object]"

end JSVal

/-- The fields of the typed `SongInfo` record that the websocket route reads.
`isPaused` and `elapsedSeconds` are optional in the upstream type; the string
fields are always present. -/
structure SongInfo where
  title : String
  artist : String
  videoId : String
  isPaused : Option Bool
  elapsedSeconds : Option ℚ
deriving DecidableEq, Repr

/-- `VolumeState` from the datahost state types: volume level plus mute
flag. -/
structure VolumeState where
  state : ℚ
  isMuted : Bool
deriving DecidableEq, Repr

/-- `RepeatMode` enumeration. -/
inductive RepeatMode where
  | NONE
  | ONE
  | ALL
deriving DecidableEq, Repr

/-- The denormalized song reference embedded in a lyric record:
`{ title, artists, videoId }`. -/
structure NormSong where
  title : String
  artists : List String
  videoId : String
deriving DecidableEq, Repr

/-- The normalized lyric record produced by `normalizeLyric` (and by the
HTTP refresh path).  `index` is the coerced number, or `none` for JS `null`;
`timeInMs` and `duration` are always NaN-guarded real numbers; `timestamp`
may still be NaN when the payload carried an unparsable one; `provider` and
`romanized` are pass-through JS values. -/
structure LyricLine where
  index : Option ℚ
  text : String
  timeInMs : ℚ
  duration : ℚ
  isSynced : Bool
  song : Option NormSong
  timestamp : JSNum
  provider : JSVal
  romanized : JSVal

/-- `song.artist.split(/[&,]/).map((s) => s.trim())`. -/
def splitArtists (artist : String) : List String :=
  (splitChars (fun c => c == '&' || c == ',') artist.data []).map trimString

/-- `song ? { title, artists: song.artist ? split... : [], videoId } :
undefined` — the denormalized song reference shared by `normalizeLyric` and
the HTTP refresh path. -/
def denormSong (song : Option SongInfo) : Option NormSong :=
  song.map (fun s =>
    { title := s.title
      artists := if s.artist != "" then splitArtists s.artist else []
      videoId := s.videoId })

/-- `normalizeLyric(payload, song)` from the websocket route.  `now` stands
for the `Date.now()` read in the `timestamp` default.  The source wraps the
body in `try`/`catch (e) { return null }`; with a string-typed
`song.artist` no step of the body can throw, so the embedding reaches the
`return normalized` path on every input (the `?? NaN` / `?? 0` appended
after `Number(...)` in the source are identities on numbers and are not
repeated here). -/
def normalizeLyric (payload : JSVal) (song : Option SongInfo) (now : ℚ) :
    Option LyricLine :=
  let idx := (JSVal.nullish (payload.getOpt "index") (.num (.val (-1)))).toNumber
  let line := JSVal.nullish (payload.getOpt "line") .null
  let text := JSVal.nullish (line.getOpt "text")
    (JSVal.nullish (line.getOpt "lyrics")
      (JSVal.nullish (line.getOpt "text") (.str "")))
  let timeInMs := (JSVal.nullish (line.getOpt "timeInMs")
    (JSVal.nullish (line.getOpt "time") (.num .nan))).toNumber
  let duration := (JSVal.nullish (line.getOpt "duration") (.num (.val 0))).toNumber
  some
    { index := match idx with
        | .nan => none
        | .val q => if q ≥ 0 then some q else none
      text := (JSVal.nullish text (.str "")).toStringJS
      timeInMs := match timeInMs with
        | .nan => 0
        | .val q => q
      duration := match duration with
        | .nan => 0
        | .val q => q
      isSynced := (line.getOpt "timeInMs").typeofStr == "number"
        || (line.getOpt "time").typeofStr == "string"
      song := denormSong song
      timestamp := (JSVal.nullish (payload.getOpt "timestamp")
        (.num (.val now))).toNumber
      provider := JSVal.nullish (payload.getOpt "provider") .null
      romanized := JSVal.nullish (payload.getOpt "romanized") .null }

/-- The `PlayerState` record of the websocket route. -/
structure PlayerState where
  song : Option SongInfo
  isPlaying : Bool
  muted : Bool
  position : ℚ
  volume : ℚ
  repeatMode : RepeatMode
  shuffle : Bool
deriving DecidableEq, Repr

/-- `createPlayerState({songInfo, volumeState, repeat, shuffle})`.  JS
boolean coercions: `!songInfo.isPaused` is true when `isPaused` is `false`
*or* `undefined`. -/
def createPlayerState (songInfo : Option SongInfo)
    (volumeState : Option VolumeState) (repeatMode : RepeatMode)
    (shuffle : Bool) : PlayerState :=
  { song := songInfo
    isPlaying := match songInfo with
      | some s => !(s.isPaused.getD false)
      | none => false
    muted := (volumeState.map (·.isMuted)).getD false
    position := (songInfo.bind (·.elapsedSeconds)).getD 0
    volume := (volumeState.map (·.state)).getD 100
    repeatMode := repeatMode
    shuffle := shuffle }

/-- One JSON message written to a subscriber socket, tagged by `DataTypes`
(plus the literal `'LYRICS_UNAVAILABLE'` string used in `onOpen`). -/
inductive Msg where
  | playerInfo (state : PlayerState)
  | videoChanged (song : SongInfo) (position : ℚ)
  | playerStateChanged (isPlaying : Bool) (position : Option ℚ)
  | positionChanged (position : Option ℚ)
  | volumeChanged (volume : ℚ) (muted : Bool)
  | repeatChanged (mode : RepeatMode)
  | shuffleChanged (shuffle : Bool)
  | lyricsChanged (lyric : LyricLine)
  | lyricsUnavailable

/-- The module-level mutable state of the websocket route: `volumeState`,
`repeat`, `shuffle`, `lastSongInfo`, `lastLyrics` and the `sockets` set
(modelled as its insertion-ordered, duplicate-free element list; socket
handles are opaque naturals). -/
structure HubState where
  volumeState : Option VolumeState
  repeatMode : RepeatMode
  shuffle : Bool
  lastSongInfo : Option SongInfo
  lastLyrics : Option LyricLine
  sockets : List ℕ

/-- The state right after `register` runs: no volume state, repeat `'NONE'`,
shuffle off, no song, no lyrics, no sockets. -/
def initialHubState : HubState :=
  { volumeState := none
    repeatMode := .NONE
    shuffle := false
    lastSongInfo := none
    lastLyrics := none
    sockets := [] }

/-- One upstream event the route ingests: the three `registerCallback`
song-info events, the `synced-lyrics:current` push (with the `Date.now()`
reading used by `normalizeLyric`), and the four `peard:*` ipc events. -/
inductive Event where
  | videoSrcChanged (songInfo : SongInfo)
  | playOrPaused (songInfo : SongInfo)
  | timeChanged (songInfo : SongInfo)
  | lyricCurrent (payload : JSVal) (now : ℚ)
  | volumeChanged (v : VolumeState)
  | repeatChanged (m : RepeatMode)
  | seeked (t : ℚ)
  | shuffleChanged (b : Bool)

/-- Ingest one event: the updated module state plus the broadcast message it
fans out (at most one per event).  Mirrors the `registerCallback` handler
(which always ends with `lastSongInfo = {...songInfo}`) and the four
`ipc.on` handlers; a `synced-lyrics:current` payload whose normalization
returned `null` would be dropped with no broadcast. -/
def stepHub (s : HubState) (e : Event) : HubState × Option Msg :=
  match e with
  | .videoSrcChanged si =>
    ({ s with lastLyrics := none, lastSongInfo := some si },
     some (.videoChanged si 0))
  | .playOrPaused si =>
    ({ s with lastSongInfo := some si },
     some (.playerStateChanged (!(si.isPaused.getD true)) si.elapsedSeconds))
  | .timeChanged si =>
    ({ s with lastSongInfo := some si },
     some (.positionChanged si.elapsedSeconds))
  | .lyricCurrent payload now =>
    match normalizeLyric payload s.lastSongInfo now with
    | some l => ({ s with lastLyrics := some l }, some (.lyricsChanged l))
    | none => (s, none)
  | .volumeChanged v =>
    ({ s with volumeState := some v }, some (.volumeChanged v.state v.isMuted))
  | .repeatChanged m =>
    ({ s with repeatMode := m }, some (.repeatChanged m))
  | .seeked t =>
    (s, some (.positionChanged (some t)))
  | .shuffleChanged b =>
    ({ s with shuffle := b }, some (.shuffleChanged b))

/-- Fold a list of events through the hub, keeping only the state. -/
def runHub (s : HubState) (es : List Event) : HubState :=
  es.foldl (fun st e => (stepHub st e).1) s

/-- The broadcast messages produced while folding `es` through the hub, in
order.  Every live subscriber receives exactly this stream. -/
def deltas (s : HubState) (es : List Event) : List Msg :=
  match es with
  | [] => []
  | e :: rest => (stepHub s e).2.toList ++ deltas (stepHub s e).1 rest

/-- `onOpen`: add the socket to the set, then send `PLAYER_INFO` built from
the full current state, then `LYRICS_CHANGED` when `lastLyrics` is set and
the literal `LYRICS_UNAVAILABLE` message otherwise. -/
def onOpen (s : HubState) (ws : ℕ) : HubState × List Msg :=
  ({ s with sockets := if ws ∈ s.sockets then s.sockets else s.sockets ++ [ws] },
   .playerInfo (createPlayerState s.lastSongInfo s.volumeState s.repeatMode
      s.shuffle)
     :: (match s.lastLyrics with
         | some l => [.lyricsChanged l]
         | none => [.lyricsUnavailable]))

/-- `onClose`: `sockets.delete(ws)`. -/
def onClose (s : HubState) (ws : ℕ) : HubState :=
  { s with sockets := s.sockets.filter (· ≠ ws) }

/-- The full message stream observed by a subscriber that connects at state
`s` and stays connected while the events `es` are ingested: the `onOpen`
baseline followed by every subsequent broadcast delta. -/
def connStream (s : HubState) (ws : ℕ) (es : List Event) : List Msg :=
  (onOpen s ws).2 ++ deltas (onOpen s ws).1 es

/-- `sockets.forEach((socket) => socket.send(...))` with a failure model:
`fails socket` says whether `socket.send` throws.  Returns the list of
sockets that actually received the message and the socket whose send threw,
if any.  JS `Set.forEach` runs the callback in insertion order and an
exception aborts the iteration, so delivery stops at the first failing
socket; the source installs no `try`/`catch` around `socket.send` and never
deletes a socket here. -/
def forEachSend (sockets : List ℕ) (fails : ℕ → Bool) : List ℕ × Option ℕ :=
  match sockets with
  | [] => ([], none)
  | sock :: rest =>
    if fails sock then ([], some sock)
    else
      let (d, e) := forEachSend rest fails
      (sock :: d, e)

/-- The `send` helper seen as a state transformer: it reads `sockets` and
never writes any module state, so the post-state is the pre-state.  Returns
(post-state, delivered sockets, thrown-at socket). -/
def sendBroadcast (s : HubState) (fails : ℕ → Bool) :
    HubState × List ℕ × Option ℕ :=
  (s, forEachSend s.sockets fails)

/-- The structured result of the renderer script run by the current-lyric
route: the script returns `null` or
`{ index: null, text, romanized, timestamp: Date.now() }`. -/
structure RenderedLyric where
  text : String
  romanized : Option String
  timestamp : ℚ
deriving DecidableEq, Repr

/-- The lyric record the HTTP handler stores into `lastLyrics` from a
non-null renderer result. -/
def buildRefreshedLyric (r : RenderedLyric) (song : Option SongInfo) :
    LyricLine :=
  { index := none
    text := r.text
    timeInMs := 0
    duration := 0
    isSynced := false
    song := denormSong song
    timestamp := .val r.timestamp
    provider := .null
    romanized := match r.romanized with
      | some s => .str s
      | none => .null }

/-- The current-lyric HTTP handler.  `refresh` is the outcome of
`window.webContents.executeJavaScript`: an exception (caught and ignored), a
`null` result (the `if (res)` guard skips the store), or a rendered line
(stored into `lastLyrics` before responding).  The response is
`{ available: !!lastLyrics, lyric: lastLyrics ?? null }` read from the
post-store state. -/
def currentLyricHandler (s : HubState)
    (refresh : Except Unit (Option RenderedLyric)) :
    HubState × (Bool × Option LyricLine) :=
  let s1 := match refresh with
    | .ok (some r) =>
      { s with lastLyrics := some (buildRefreshedLyric r s.lastSongInfo) }
    | _ => s
  (s1, (s1.lastLyrics.isSome, s1.lastLyrics))

/-- Message classifier used to count `PLAYER_INFO` frames. -/
def isPlayerInfo (m : Msg) : Bool :=
  match m with
  | .playerInfo _ => true
  | _ => false

/-- An event whose ingestion can never (re)establish a lyric snapshot: from
any state with no stored lyric it leads to a state with no stored lyric.
Every event other than a successfully normalized `synced-lyrics:current`
push satisfies this. -/
def preservesNoLyric (e : Event) : Prop :=
  ∀ st : HubState, st.lastLyrics = none → ((stepHub st e).1).lastLyrics = none

/-! Concrete example inputs used to instantiate the claims. -/

/-- A registry holding two live subscribers, in insertion order. -/
def twoSocketState : HubState := { initialHubState with sockets := [1, 2] }

/-- A registry holding three live subscribers, in insertion order. -/
def threeSocketState : HubState := { initialHubState with sockets := [1, 2, 3] }

/-- A lyric push payload carrying index, a synced line and a provider. -/
def pushedPayload : JSVal :=
  .obj [("index", .num (.val 2)),
        ("line", .obj [("text", .str "pushed line"),
                       ("timeInMs", .num (.val 1500))]),
        ("provider", .str "LRCLib")]

/-- The hub state after ingesting `pushedPayload` at time 42 from the initial
state: a pushed lyric snapshot is present. -/
def pushedState : HubState :=
  (stepHub initialHubState (.lyricCurrent pushedPayload 42)).1

/-- A renderer scrape result that differs from the pushed line. -/
def scrapedLine : RenderedLyric := ⟨"scraped line", none, 99⟩

/-- A payload that omits only `timestamp` but carries `index` and a synced
`line`. -/
def timedPayload : JSVal :=
  .obj [("index", .num (.val 5)),
        ("line", .obj [("text", .str "a"), ("timeInMs", .num (.val 100))])]

/-- A payload whose `line` is plain static text: no `timeInMs`, no `time`. -/
def staticPayload : JSVal :=
  .obj [("line", .obj [("text", .str "hi")])]

/-- The lyric record `normalizeLyric` produces for `staticPayload` with no
song context at time 0. -/
def staticLyric : LyricLine :=
  { index := none
    text := "hi"
    timeInMs := 0
    duration := 0
    isSynced := false
    song := none
    timestamp := .val 0
    provider := .null
    romanized := .null }

/-- A song whose last reported elapsed time is 5 seconds. -/
def songAtFive : SongInfo :=
  { title := "T", artist := "A", videoId := "v",
    isPaused := some false, elapsedSeconds := some 5 }

/-- Hub state that has seen `songAtFive` and nothing else. -/
def songAtFiveState : HubState :=
  { initialHubState with lastSongInfo := some songAtFive }

/-! Helper lemmas. -/

/-- Member access after `?? null` coalescing agrees with member access on the
raw value: both `null` and `undefined` have no members. -/
theorem getOpt_nullish_null (v : JSVal) (k : String) :
    (JSVal.nullish v .null).getOpt k = v.getOpt k := by
  cases v <;> rfl

/-- Folding events through the hub never re-creates a lyric snapshot when
every event preserves its absence. -/
theorem runHub_lastLyrics_none (es : List Event) :
    ∀ s : HubState, s.lastLyrics = none → (∀ e ∈ es, preservesNoLyric e) →
      (runHub s es).lastLyrics = none := by
  induction es with
  | nil => intro s hs _; exact hs
  | cons e rest ih =>
    intro s hs h
    exact ih _ (h e (by simp) s hs) (fun e' he' => h e' (by simp [he']))

/-- No ingested event ever broadcasts a `PLAYER_INFO` frame. -/
theorem stepHub_countP_playerInfo (s : HubState) (e : Event) :
    ((stepHub s e).2.toList.countP isPlayerInfo) = 0 := by
  cases e <;> simp [stepHub, normalizeLyric, isPlayerInfo]

/-- The delta stream of any event sequence contains no `PLAYER_INFO`
frame. -/
theorem deltas_countP_playerInfo (es : List Event) :
    ∀ s : HubState, (deltas s es).countP isPlayerInfo = 0 := by
  induction es with
  | nil => intro s; rfl
  | cons e rest ih =>
    intro s
    simp [deltas, List.countP_append, stepHub_countP_playerInfo, ih]

/-- `forEachSend` delivers exactly to the prefix before the first failing
socket and rethrows that socket's error. -/
theorem forEachSend_eq (fails : ℕ → Bool) (x : ℕ) (post : List ℕ) :
    ∀ pre : List ℕ, (∀ y ∈ pre, fails y = false) → fails x = true →
      forEachSend (pre ++ x :: post) fails = (pre, some x) := by
  intro pre
  induction pre with
  | nil => intro _ hx; simp [forEachSend, hx]
  | cons y rest ih =>
    intro hpre hx
    have hy : fails y = false := hpre y (by simp)
    simp only [List.cons_append, forEachSend, hy, Bool.false_eq_true,
      if_false, List.append_eq,
      ih (fun z hz => hpre z (by simp [hz])) hx]

/-! Claim theorems. -/

/-- C1 counterexample: with live subscribers 1 and 2, a send failure on
subscriber 1 leaves subscriber 2 undelivered (fan-out aborts with the thrown
error) and subscriber 1 still in the registry — the `send` helper catches
nothing and removes nobody. -/
theorem C1_counterexample :
    sendBroadcast twoSocketState (fun n => n == 1)
      = (twoSocketState, [], some 1)
    ∧ 1 ∈ (sendBroadcast twoSocketState (fun n => n == 1)).1.sockets
    ∧ 2 ∉ (sendBroadcast twoSocketState (fun n => n == 1)).2.1 := by
  refine ⟨rfl, ?_, ?_⟩ <;> decide

/-- C1 amended: during fan-out, a send failure on subscriber X aborts the
iteration — exactly the subscribers before X in insertion order receive the
message, those after X do not, the error propagates, and X (like everyone
else) remains in the registry; `send` never removes a connection. -/
theorem C1_theorem (s : HubState) (pre post : List ℕ) (x : ℕ)
    (fails : ℕ → Bool) (hsock : s.sockets = pre ++ x :: post)
    (hpre : ∀ y ∈ pre, fails y = false) (hx : fails x = true) :
    sendBroadcast s fails = (s, pre, some x) := by
  unfold sendBroadcast
  rw [hsock, forEachSend_eq fails x post pre hpre hx]

/-- C1 witness: three live subscribers, subscriber 2 fails — subscriber 1
was delivered, subscriber 3 was not, the state (registry included) is
untouched. -/
theorem C1_witness :
    sendBroadcast threeSocketState (fun n => n == 2)
      = (threeSocketState, [1], some 2) :=
  C1_theorem threeSocketState [1] [3] 2 (fun n => n == 2) rfl
    (by decide) rfl

/-- C2 counterexample: a pushed lyric snapshot is present, yet a successful
renderer refresh still runs and the endpoint returns the scraped line in
place of the pushed one — the refresh is not gated on the absence of a push,
and the pushed snapshot is not returned unchanged. -/
theorem C2_counterexample :
    pushedState.lastLyrics.map LyricLine.text = some "pushed line"
    ∧ ((currentLyricHandler pushedState (.ok (some scrapedLine))).2.2).map
        LyricLine.text = some "scraped line"
    ∧ (some "scraped line" : Option String) ≠ some "pushed line" := by
  refine ⟨rfl, rfl, by decide⟩

/-- C2 amended: the endpoint attempts the external refresh on every call,
even when a pushed lyric snapshot exists.  A refresh failure or a null
renderer result is swallowed: the state is untouched and the endpoint
returns the stored snapshot unchanged as `{available, lyric}`.  A successful
non-null refresh replaces the stored snapshot and the endpoint returns the
refreshed lyric instead. -/
theorem C2_theorem (s : HubState) :
    currentLyricHandler s (.error ()) = (s, (s.lastLyrics.isSome, s.lastLyrics))
    ∧ currentLyricHandler s (.ok none)
        = (s, (s.lastLyrics.isSome, s.lastLyrics))
    ∧ ∀ r : RenderedLyric,
        currentLyricHandler s (.ok (some r))
          = ({ s with lastLyrics := some (buildRefreshedLyric r s.lastSongInfo) },
             (true, some (buildRefreshedLyric r s.lastSongInfo))) :=
  ⟨rfl, rfl, fun _ => rfl⟩

/-- C5 counterexample: `timedPayload` is missing its `timestamp` field (one
of the "any combination" cases), yet normalization yields `index = 5` (not
`null`) and `timeInMs = 100` (not `0`). -/
theorem C5_counterexample :
    timedPayload.getOpt "timestamp" = .undefined
    ∧ (normalizeLyric timedPayload none 0).map LyricLine.index
        = some (some 5)
    ∧ (normalizeLyric timedPayload none 0).map LyricLine.timeInMs
        = some 100 := by
  refine ⟨rfl, rfl, rfl⟩

/-- C5 amended: normalization never throws (it always yields a record), and
each missing field independently gets its default: a missing `index` gives
`index = null`, a missing `line` gives `text = ""`, `timeInMs = 0` and
`duration = 0`, and a missing `timestamp` defaults to the ingest time.
Fields that are present keep their extracted values. -/
theorem C5_theorem (payload : JSVal) (song : Option SongInfo) (now : ℚ) :
    (normalizeLyric payload song now).isSome = true
    ∧ (payload.getOpt "index" = .undefined →
        (normalizeLyric payload song now).map LyricLine.index = some none)
    ∧ (payload.getOpt "line" = .undefined →
        (normalizeLyric payload song now).map LyricLine.text = some ""
        ∧ (normalizeLyric payload song now).map LyricLine.timeInMs = some 0
        ∧ (normalizeLyric payload song now).map LyricLine.duration = some 0)
    ∧ (payload.getOpt "timestamp" = .undefined →
        (normalizeLyric payload song now).map LyricLine.timestamp
          = some (.val now)) := by
  refine ⟨rfl, fun h => ?_, fun h => ?_, fun h => ?_⟩
  · simp only [normalizeLyric, h]
    simp [JSVal.nullish, JSVal.toNumber]
  · refine ⟨?_, ?_, ?_⟩ <;>
    · simp only [normalizeLyric, h]
      simp [JSVal.nullish, JSVal.getOpt, JSVal.toNumber, JSVal.toStringJS]
  · simp only [normalizeLyric, h]
    simp [JSVal.nullish, JSVal.toNumber]

/-- C5 witness: the empty-object payload (all three fields absent) gets
every default at ingest time 3. -/
theorem C5_witness :
    (normalizeLyric (.obj []) none 3).map LyricLine.index = some none
    ∧ (normalizeLyric (.obj []) none 3).map LyricLine.text = some ""
    ∧ (normalizeLyric (.obj []) none 3).map LyricLine.timeInMs = some 0
    ∧ (normalizeLyric (.obj []) none 3).map LyricLine.duration = some 0
    ∧ (normalizeLyric (.obj []) none 3).map LyricLine.timestamp
        = some (.val 3) := by
  obtain ⟨-, h2, h3, h4⟩ := C5_theorem (.obj []) none 3
  obtain ⟨h3a, h3b, h3c⟩ := h3 rfl
  exact ⟨h2 rfl, h3a, h3b, h3c, h4 rfl⟩

/-- C6 counterexample: with last song at 5 elapsed seconds, ingesting
`peard:seeked` with t = 10 broadcasts `POSITION_CHANGED {position: 10}` but
leaves the hub state untouched, so the next `PLAYER_INFO` snapshot reports
position 5, not 10. -/
theorem C6_counterexample :
    stepHub songAtFiveState (.seeked 10)
      = (songAtFiveState, some (.positionChanged (some 10)))
    ∧ (createPlayerState songAtFiveState.lastSongInfo
        songAtFiveState.volumeState songAtFiveState.repeatMode
        songAtFiveState.shuffle).position = 5
    ∧ (5 : ℚ) ≠ 10 := by
  refine ⟨rfl, rfl, by norm_num⟩

/-- C6 amended: ingesting the external seek notification with seconds t
broadcasts a `POSITION_CHANGED {position: t}` delta but updates no stored
state — a later `PLAYER_INFO` snapshot still reports the position from the
last song-info event, not t. -/
theorem C6_theorem (s : HubState) (t : ℚ) :
    stepHub s (.seeked t) = (s, some (.positionChanged (some t))) :=
  rfl

/-- C10: the current-lyric endpoint's response always satisfies
`available = true` exactly when `lyric` is non-null, whatever the state and
whatever the refresh outcome. -/
theorem C10_theorem (s : HubState)
    (refresh : Except Unit (Option RenderedLyric)) :
    ((currentLyricHandler s refresh).2.1 = true
      ↔ (currentLyricHandler s refresh).2.2 ≠ none) := by
  cases refresh with
  | error e => simpa [currentLyricHandler] using Option.isSome_iff_ne_none
  | ok o =>
    cases o with
    | none => simpa [currentLyricHandler] using Option.isSome_iff_ne_none
    | some r => simp [currentLyricHandler]

/-- C3: ingesting a track change clears the lyric snapshot and broadcasts a
`VIDEO_CHANGED {song, position: 0}` delta; as long as every later event
leaves the cleared snapshot cleared (which every event other than a
successfully normalized lyric push does), a connection opened afterwards
gets `LYRICS_UNAVAILABLE`, not `LYRICS_CHANGED`, as its lyric baseline. -/
theorem C3_theorem (s : HubState) (si : SongInfo) (es : List Event) (ws : ℕ)
    (h : ∀ e ∈ es, preservesNoLyric e) :
    ((stepHub s (.videoSrcChanged si)).1).lastLyrics = none
    ∧ (stepHub s (.videoSrcChanged si)).2 = some (.videoChanged si 0)
    ∧ ∃ ps : PlayerState,
        (onOpen (runHub (stepHub s (.videoSrcChanged si)).1 es) ws).2
          = [.playerInfo ps, .lyricsUnavailable] := by
  refine ⟨rfl, rfl, ?_⟩
  have hnone : (runHub (stepHub s (.videoSrcChanged si)).1 es).lastLyrics
      = none := runHub_lastLyrics_none es _ rfl h
  refine ⟨createPlayerState
      (runHub (stepHub s (.videoSrcChanged si)).1 es).lastSongInfo
      (runHub (stepHub s (.videoSrcChanged si)).1 es).volumeState
      (runHub (stepHub s (.videoSrcChanged si)).1 es).repeatMode
      (runHub (stepHub s (.videoSrcChanged si)).1 es).shuffle, ?_⟩
  simp [onOpen, hnone]

/-- C3 witness: from the initial state, a track change followed by a volume
change and a seek (neither of which can restore a lyric snapshot) leaves a
freshly opened connection with the `LYRICS_UNAVAILABLE` baseline. -/
theorem C3_witness :
    ∃ ps : PlayerState,
      (onOpen (runHub (stepHub initialHubState (.videoSrcChanged songAtFive)).1
          [.volumeChanged ⟨42, true⟩, .seeked 10]) 0).2
        = [.playerInfo ps, .lyricsUnavailable] :=
  (C3_theorem initialHubState songAtFive [.volumeChanged ⟨42, true⟩, .seeked 10]
    0 (by
      intro e he
      simp only [List.mem_cons, List.not_mem_nil, or_false] at he
      rcases he with rfl | rfl <;>
        exact fun st hst => by simpa [stepHub] using hst)).2.2

/-- C4: whatever the state and whatever is ingested afterwards, the stream a
new connection observes starts with exactly one `PLAYER_INFO` frame built
from the full current player state, then one lyric-baseline frame —
`LYRICS_CHANGED` with the stored lyric when one exists, `LYRICS_UNAVAILABLE`
otherwise — and only then the deltas of subsequently ingested events; no
other `PLAYER_INFO` frame ever appears in the stream. -/
theorem C4_theorem (s : HubState) (ws : ℕ) (es : List Event) :
    (∃ m : Msg,
      connStream s ws es
        = .playerInfo (createPlayerState s.lastSongInfo s.volumeState
            s.repeatMode s.shuffle)
          :: m :: deltas (onOpen s ws).1 es
      ∧ ((s.lastLyrics = none ∧ m = .lyricsUnavailable)
          ∨ ∃ l : LyricLine, s.lastLyrics = some l ∧ m = .lyricsChanged l))
    ∧ (connStream s ws es).countP isPlayerInfo = 1 := by
  constructor
  · cases hl : s.lastLyrics with
    | none =>
      exact ⟨.lyricsUnavailable, by simp [connStream, onOpen, hl],
        Or.inl ⟨rfl, rfl⟩⟩
    | some l =>
      exact ⟨.lyricsChanged l, by simp [connStream, onOpen, hl],
        Or.inr ⟨l, rfl, rfl⟩⟩
  · cases hl : s.lastLyrics <;>
      simp [connStream, onOpen, hl, List.countP_cons, List.countP_append,
        isPlayerInfo, deltas_countP_playerInfo]

/-- C7: the normalized record is synced exactly when the raw nested `line`
object's `timeInMs` field has JS type `number` or its `time` field has JS
type `string`; in particular a line with neither field is unsynced no matter
what millisecond value normalization produced. -/
theorem C7_theorem (payload : JSVal) (song : Option SongInfo) (now : ℚ)
    (l : LyricLine) (h : normalizeLyric payload song now = some l) :
    (l.isSynced = true ↔
      ((payload.getOpt "line").getOpt "timeInMs").typeofStr = "number"
      ∨ ((payload.getOpt "line").getOpt "time").typeofStr = "string")
    ∧ ((payload.getOpt "line").getOpt "timeInMs" = .undefined →
        (payload.getOpt "line").getOpt "time" = .undefined →
        l.isSynced = false) := by
  simp only [normalizeLyric, Option.some.injEq] at h
  subst h
  constructor
  · simp [getOpt_nullish_null]
  · intro h1 h2
    simp [getOpt_nullish_null, h1, h2, JSVal.typeofStr]

/-- C7 witness: a plain static-text line (no `timeInMs`, no `time`) is not
synced, matching the absence of timing metadata in the raw payload. -/
theorem C7_witness :
    (staticLyric.isSynced = true ↔
      ((staticPayload.getOpt "line").getOpt "timeInMs").typeofStr = "number"
      ∨ ((staticPayload.getOpt "line").getOpt "time").typeofStr = "string")
    ∧ ((staticPayload.getOpt "line").getOpt "timeInMs" = .undefined →
        (staticPayload.getOpt "line").getOpt "time" = .undefined →
        staticLyric.isSynced = false) :=
  C7_theorem staticPayload none 0 staticLyric rfl

/-- C8: the `PLAYER_INFO` snapshot derives `isPlaying` as "a song is present
and it is not paused" (an absent `isPaused` counts as not paused, by JS
boolean coercion), and the snapshot built before any volume, song,
repeat or shuffle event reports the defaults `muted = false`,
`position = 0`, `volume = 100`, `repeat = NONE`, `shuffle = false`. -/
theorem C8_theorem :
    (∀ (songInfo : Option SongInfo) (volumeState : Option VolumeState)
        (r : RepeatMode) (sh : Bool),
      (createPlayerState songInfo volumeState r sh).isPlaying = true
        ↔ ∃ s : SongInfo, songInfo = some s ∧ s.isPaused.getD false = false)
    ∧ (createPlayerState initialHubState.lastSongInfo
        initialHubState.volumeState initialHubState.repeatMode
        initialHubState.shuffle).muted = false
    ∧ (createPlayerState initialHubState.lastSongInfo
        initialHubState.volumeState initialHubState.repeatMode
        initialHubState.shuffle).position = 0
    ∧ (createPlayerState initialHubState.lastSongInfo
        initialHubState.volumeState initialHubState.repeatMode
        initialHubState.shuffle).volume = 100
    ∧ (createPlayerState initialHubState.lastSongInfo
        initialHubState.volumeState initialHubState.repeatMode
        initialHubState.shuffle).repeatMode = .NONE
    ∧ (createPlayerState initialHubState.lastSongInfo
        initialHubState.volumeState initialHubState.repeatMode
        initialHubState.shuffle).shuffle = false := by
  refine ⟨?_, rfl, rfl, rfl, rfl, rfl⟩
  intro songInfo volumeState r sh
  cases songInfo with
  | none => simp [createPlayerState]
  | some s => simp [createPlayerState]

/-- C9: for a current song whose artist string is "A & B, C", the normalized
record's song reference carries the ordered artist list ["A", "B", "C"],
with title and videoId passed through verbatim — whatever the payload and
the rest of the song record. -/
theorem C9_theorem (payload : JSVal) (now : ℚ) (title videoId : String)
    (isPaused : Option Bool) (elapsed : Option ℚ) :
    (normalizeLyric payload
        (some ⟨title, "A & B, C", videoId, isPaused, elapsed⟩) now).map
      LyricLine.song = some (some ⟨title, ["A", "B", "C"], videoId⟩) := by
  simp only [normalizeLyric, Option.map_some]
  simp [denormSong]
  decide

end Pear
